import Mathlib

/-!
Verification development for the `pybibliometric_analysis` extraction
pipeline.  The definitions below are a shallow embedding of the Python
sources `src/pybibliometric_analysis/extract_scopus.py`,
`src/pybibliometric_analysis/settings.py` and
`src/pybibliometric_analysis/scopus_full_analysis.py`:

* pure Python functions become Lean functions;
* the filesystem, the environment variables and the remote Scopus API are
  passed in explicitly as records of oracles;
* a Python call that may raise becomes a value in `Except`/`Option`;
* observable side effects of `run_extract` (remote search calls, writes of
  the raw table and of the manifest) are returned as an explicit effect
  list.

Theorems about each specified behaviour follow the definitions.
-/

namespace PyBib

/-! ## Python string helpers

`str.strip`, `str.lower` and `re.sub(r"\s+", " ", ...)` as used by
`scopus_full_analysis.py` and `settings.py`.  Python `\s` on ASCII text is
space, tab, newline, carriage return, vertical tab and form feed; `lower`
on the ASCII subset is `Char.toLower`. -/

/-- Characters matched by Python's `\s` (ASCII). -/
def is_py_space (c : Char) : Bool :=
  c = ' ' ∨ c = '\t' ∨ c = '\n' ∨ c = '\r' ∨ c = '\x0b' ∨ c = '\x0c'

/-- Python `str.strip()`: remove leading and trailing whitespace. -/
def py_strip (s : String) : String :=
  String.mk (((s.toList.dropWhile is_py_space).reverse.dropWhile is_py_space).reverse)

/-- Python `str.lower()` (ASCII). -/
def py_lower (s : String) : String :=
  String.mk (s.toList.map Char.toLower)

/-- `re.sub(r"\s+", " ", ·)` on the character list: every maximal run of
whitespace becomes a single space.  A whitespace character emits `' '`
unless the collapsed tail already starts with the `' '` of the same run
(see `collapse_ws_space_run`: this equals dropping the rest of the run). -/
def collapse_ws : List Char → List Char
  | [] => []
  | c :: rest =>
    if is_py_space c then
      match collapse_ws rest with
      | ' ' :: tl => ' ' :: tl
      | tl => ' ' :: tl
    else c :: collapse_ws rest

/-- Python `part.split(sep)[0]` for a one-character separator: the prefix up
to the first occurrence of `sep`. -/
def py_split_head (sep : Char) (s : String) : String :=
  String.mk (s.toList.takeWhile (fun c => c != sep))

/-- Python `s in t` (substring test), via `str.split`. -/
def py_contains (t pat : String) : Bool :=
  (t.splitOn pat).length != 1

end PyBib

namespace PyBib

/-! ## Strategy selection — `extract_scopus.py` -/

/-- Fixed result-count threshold of `run_extract` (extract_scopus.py line 127). -/
def threshold : Nat := 5000

/-- The strategy selection of `run_extract` (extract_scopus.py lines 147-154):
`force_slicing` wins, then `cursor` for large subscriber runs preferring the
cursor, then `slicing` for large runs, else `single`. -/
def planned_strategy (n : Nat) (force_slicing subscriber_mode use_cursor_preferred : Bool) :
    String :=
  if force_slicing then "slicing"
  else if threshold < n ∧ subscriber_mode ∧ use_cursor_preferred then "cursor"
  else if threshold < n then "slicing"
  else "single"

/-- `_is_query_limit_error` (extract_scopus.py lines 46-52), applied to
`str(exc)`; the function lowercases the message before the substring tests. -/
def is_query_limit_error (message : String) : Bool :=
  py_contains (py_lower message) "more than 5000"
    || py_contains (py_lower message) "5000 entries"
    || py_contains (py_lower message) "fails to return more than 5000"

end PyBib

namespace PyBib

/-! ## Error classification and the retry wrapper — `extract_scopus.py`

A Python exception, as observed by `_raise_actionable_scopus_error`, is its
class name, an optional `status_code` attribute, the lowercased `str(exc)`
message, and the list of actionable class names from
`pybliometrics.scopus.exception` that the exception is an instance of (only
consulted when that module is importable). -/

structure PyExc where
  name : String
  status_code : Option Int
  message : String
  instances : List String
deriving DecidableEq

/-- The `actionable` message table of `_raise_actionable_scopus_error`
(extract_scopus.py lines 373-379). -/
def actionable : List (String × String) :=
  [("Scopus401Error", "Unauthorized (401): SCOPUS_API_KEY is invalid or disabled."),
   ("Scopus403Error",
     "Forbidden (403): access requires INST_TOKEN or an institutional subscription."),
   ("Scopus429Error", "Rate limited: too many requests; reduce request rate or retry later.")]

/-- Dictionary lookup `actionable[name]`. -/
def actionable_lookup (n : String) : Option String :=
  (actionable.find? (fun p => p.1 == n)).map (fun p => p.2)

/-- The `isinstance` loop of `_raise_actionable_scopus_error`
(extract_scopus.py lines 390-395), reached only when neither the class-name
nor the status-code check fired; it iterates the `actionable` table in
order. -/
def instance_check (module_present : Bool) (exc : PyExc) : Option String :=
  if module_present then
    (actionable.find? (fun p => exc.instances.contains p.1)).map (fun p => p.2)
  else Option.none

/-- `_raise_actionable_scopus_error` (extract_scopus.py lines 371-395):
`some msg` means the function raises `RuntimeError(msg)`, `none` means it
returns normally.  Class name is checked first, then the `status_code`
attribute against `{401, 403, 429}`, then instance checks against the
`pybliometrics` exception module when it is importable. -/
def raise_actionable_scopus_error (module_present : Bool) (exc : PyExc) : Option String :=
  match actionable_lookup exc.name with
  | some m => some m
  | Option.none =>
    match exc.status_code with
    | some code =>
      if code = 401 ∨ code = 403 ∨ code = 429 then
        some ((actionable_lookup ("Scopus" ++ toString code ++ "Error")).getD
          "Scopus API error.")
      else instance_check module_present exc
    | Option.none => instance_check module_present exc

/-- How one run of `retry_scopus_search` ends. -/
inductive RetryOutcome (α : Type) where
  | ok : α → RetryOutcome α
  /-- `RuntimeError` raised from inside `_raise_actionable_scopus_error`. -/
  | actionable_error : String → RetryOutcome α
  /-- The bare `raise` on the final loop iteration: the last error propagates. -/
  | reraised : PyExc → RetryOutcome α
  /-- `RuntimeError("Scopus search failed")` after the loop (reachable only
  with `retries = 0`). -/
  | no_attempt : RetryOutcome α
deriving DecidableEq

/-- Observable trace of one `retry_scopus_search` run: its outcome, how many
`ScopusSearch` construction attempts were made, and how many times
`time.sleep(delay)` ran. -/
structure RetryTrace (α : Type) where
  outcome : RetryOutcome α
  attempts : Nat
  sleeps : Nat
deriving DecidableEq

/-- Default `retries` argument of `retry_scopus_search` (extract_scopus.py
line 338). -/
def default_retries : Nat := 3

/-- Default `delay` argument of `retry_scopus_search` in seconds
(extract_scopus.py line 339, `2.0`). -/
def default_delay_seconds : ℚ := 2

/-- The `for attempt in range(retries)` loop body of `retry_scopus_search`
(extract_scopus.py lines 342-352).  `attempt_result i` is the outcome of the
`i`-th `ScopusSearch` construction; `remaining` counts the iterations left.
On an exception, `_raise_actionable_scopus_error` runs first; if it does not
raise, the wrapper sleeps and retries unless this was the final iteration,
in which case the exception is re-raised. -/
def retry_go {α : Type} (module_present : Bool) (attempt_result : Nat → Except PyExc α)
    (i remaining sleeps : Nat) : RetryTrace α :=
  match remaining with
  | 0 => { outcome := RetryOutcome.no_attempt, attempts := i, sleeps := sleeps }
  | r + 1 =>
    match attempt_result i with
    | Except.ok v => { outcome := RetryOutcome.ok v, attempts := i + 1, sleeps := sleeps }
    | Except.error exc =>
      match raise_actionable_scopus_error module_present exc with
      | some msg =>
        { outcome := RetryOutcome.actionable_error msg, attempts := i + 1, sleeps := sleeps }
      | Option.none =>
        match r with
        | 0 => { outcome := RetryOutcome.reraised exc, attempts := i + 1, sleeps := sleeps }
        | _ + 1 => retry_go module_present attempt_result (i + 1) r (sleeps + 1)

/-- `retry_scopus_search` (extract_scopus.py lines 332-353), abstracted over
the outcome of each underlying `ScopusSearch` construction attempt. -/
def retry_scopus_search {α : Type} (module_present : Bool)
    (attempt_result : Nat → Except PyExc α) (retries : Nat) : RetryTrace α :=
  retry_go module_present attempt_result 0 retries 0

/-- Total time slept by a retry run, for a given `delay` argument. -/
def total_sleep_seconds {α : Type} (t : RetryTrace α) (delay : ℚ) : ℚ :=
  t.sleeps * delay

/-- An exception classified by the code as rate limiting: class name
`Scopus429Error`, or (when the class name is not in the actionable table)
`status_code == 429`. -/
def classified_429 (exc : PyExc) : Prop :=
  exc.name = "Scopus429Error" ∨
    (actionable_lookup exc.name = Option.none ∧ exc.status_code = some 429)

instance (exc : PyExc) : Decidable (classified_429 exc) := by
  unfold classified_429; infer_instance

/-- A `pybliometrics` exception whose class name is `Scopus429Error`. -/
def exc429 : PyExc :=
  { name := "Scopus429Error", status_code := Option.none,
    message := "too many requests", instances := [] }

/-- A generic transport failure: not named in the actionable table, no
`status_code` attribute, no actionable instance relationship. -/
def exc_transport : PyExc :=
  { name := "ConnectionError", status_code := Option.none,
    message := "connection reset", instances := [] }

/-- An attempt function that always fails with the 429 exception. -/
def persistent_429_attempt : Nat → Except PyExc Unit :=
  fun _ => Except.error exc429

end PyBib

namespace PyBib

/-! ## Year slicing and the cursor fallback — `extract_scopus.py`

The remote API is abstracted into two total oracles: `probe q` is
`ScopusSearch(q, download=False).get_results_size()` and `fetch q` is the
record list of `ScopusSearch(q).results` (a successful download). -/

/-- One downloaded Scopus row: its `eid` field plus the rest of the record,
collapsed into an opaque payload. -/
structure RawRecord where
  eid : String
  payload : String
deriving DecidableEq

/-- `DataFrame.drop_duplicates` with `keep="first"` on a single derived key
column: keep a row iff its key was not seen on any earlier row. -/
def drop_duplicates_go {α : Type} (key : α → String) (seen : List String) :
    List α → List α
  | [] => []
  | r :: rs =>
    if seen.contains (key r) then drop_duplicates_go key seen rs
    else r :: drop_duplicates_go key (key r :: seen) rs

/-- `DataFrame.drop_duplicates(subset=[key], keep="first")`. -/
def drop_duplicates {α : Type} (key : α → String) (rows : List α) : List α :=
  drop_duplicates_go key [] rows

/-- The per-year sub-query `f"{query} AND PUBYEAR = {year}"`
(extract_scopus.py line 318). -/
def year_query (query : String) (year : Int) : String :=
  query ++ " AND PUBYEAR = " ++ toString year

/-- `list(range(int(start_year), int(end_year) + 1))`: the inclusive,
ascending year range (empty when `start_year > end_year`). -/
def year_range (start_year end_year : Int) : List Int :=
  (List.range (end_year + 1 - start_year).toNat).map (fun (i : Nat) => start_year + (i : Int))

/-- The per-year loop of `run_slicing` (extract_scopus.py lines 317-324):
a zero size probe skips the year; otherwise the year's full fetch is
appended as a frame and the year recorded as covered. -/
def slice_years (probe : String → Nat) (fetch : String → List RawRecord)
    (query : String) : List Int → List (List RawRecord) × List Int
  | [] => ([], [])
  | y :: ys =>
    let yq := year_query query y
    let rest := slice_years probe fetch query ys
    if probe yq = 0 then rest
    else (fetch yq :: rest.1, y :: rest.2)

/-- `ValueError` raised when neither explicit year bounds nor
`max_years_back` are available (extract_scopus.py lines 306-310). -/
inductive SlicingError where
  | value_error
deriving DecidableEq

/-- Year-bound resolution of `run_slicing` (extract_scopus.py lines 306-313):
when either bound is `None`, both bounds are recomputed from
`max_years_back` and the current UTC year, or a `ValueError` is raised when
`max_years_back` is also `None`. -/
def resolve_slicing_years (start_year end_year max_years_back : Option Int)
    (current_year : Int) : Except SlicingError (Int × Int) :=
  match start_year, end_year with
  | some s, some e => Except.ok (s, e)
  | _, _ =>
    match max_years_back with
    | Option.none => Except.error SlicingError.value_error
    | some m => Except.ok (current_year - m + 1, current_year)

/-- `run_slicing` (extract_scopus.py lines 296-329): resolve the year range,
slice it, concatenate the per-year frames in year order, and, unless the
combined table is empty, drop rows duplicating an earlier `eid`
(`drop_duplicates(subset=["eid"])`; the `eid` column is present on every
downloaded Scopus row).  Returns the combined records and the covered
years. -/
def run_slicing (probe : String → Nat) (fetch : String → List RawRecord)
    (query : String) (start_year end_year max_years_back : Option Int)
    (current_year : Int) : Except SlicingError (List RawRecord × List Int) :=
  match resolve_slicing_years start_year end_year max_years_back current_year with
  | Except.error e => Except.error e
  | Except.ok (s, e) =>
    let (frames, covered) := slice_years probe fetch query (year_range s e)
    let combined := frames.flatten
    Except.ok
      (if combined.isEmpty then combined
       else drop_duplicates (fun r => r.eid) combined, covered)

/-- `run_cursor_with_fallback` (extract_scopus.py lines 269-293), abstracted
over the outcome of the cursor-paged attempt (`cursor_result`): an exception
from the attempt, or an empty result set (which the function turns into a
`RuntimeError` it immediately catches itself), abandons the cursor and falls
through to `run_slicing`; a non-empty cursor result is returned as strategy
`"cursor"` with no years-covered tracking. -/
def run_cursor_with_fallback (cursor_result : Except PyExc (List RawRecord))
    (probe : String → Nat) (fetch : String → List RawRecord) (query : String)
    (start_year end_year max_years_back : Option Int) (current_year : Int) :
    Except SlicingError (List RawRecord × Option (List Int) × String) :=
  match cursor_result with
  | Except.ok results =>
    if results.isEmpty then
      match run_slicing probe fetch query start_year end_year max_years_back
          current_year with
      | Except.error e => Except.error e
      | Except.ok (recs, years) => Except.ok (recs, some years, "slicing")
    else Except.ok (results, Option.none, "cursor")
  | Except.error _ =>
    match run_slicing probe fetch query start_year end_year max_years_back
        current_year with
    | Except.error e => Except.error e
    | Except.ok (recs, years) => Except.ok (recs, some years, "slicing")

/-- Spec-side description of the covered-years list: the ascending sublist of
the inclusive year range whose size probe is nonzero. -/
def covered_years_spec (probe : String → Nat) (query : String) (s e : Int) : List Int :=
  (year_range s e).filter (fun y => probe (year_query query y) != 0)

/-- Spec-side description of the slicing output rows: the per-year full
fetches of exactly the covered years, concatenated in year order (then the
per-slice `eid` dedup pass of the code). -/
def slicing_records_spec (probe : String → Nat) (fetch : String → List RawRecord)
    (query : String) (s e : Int) : List RawRecord :=
  let combined :=
    ((covered_years_spec probe query s e).map (fun y => fetch (year_query query y))).flatten
  if combined.isEmpty then combined else drop_duplicates (fun r => r.eid) combined

/-- Size probe of the worked spec example: year 2021 of the query has 0
matching records, year 2022 has 3. -/
def slicing_example_probe (q : String) : Nat :=
  if q = year_query "QUERY" 2022 then 3 else 0

/-- Full fetch of the worked spec example: 3 records in year 2022. -/
def slicing_example_fetch (q : String) : List RawRecord :=
  if q = year_query "QUERY" 2022 then
    [{ eid := "2-s2.0-1", payload := "r1" },
     { eid := "2-s2.0-2", payload := "r2" },
     { eid := "2-s2.0-3", payload := "r3" }]
  else []

end PyBib

namespace PyBib

/-! ## Full-analysis deduplication — `scopus_full_analysis.py`

One input CSV row, reduced to the fields the dedup key reads.  A missing
(NaN) cell is modeled as the empty string: the pipeline's `fillna("")` and
the `pd.isna → ""` branches of `_norm_text`/`_first_author` send NaN there
as well. -/

structure CsvRow where
  eid : String
  doi : String
  title : String
  authors : String
  year : Int
deriving DecidableEq

/-- `_norm_text` (scopus_full_analysis.py lines 33-38): strip, lowercase,
collapse each internal whitespace run to a single space. -/
def norm_text (s : String) : String :=
  String.mk (collapse_ws (py_lower (py_strip s)).toList)

/-- `_first_author` (scopus_full_analysis.py lines 47-53): the normalized
first `;`-separated author segment (`text.split(";")[0]`). -/
def first_author (authors : String) : String :=
  let text := py_strip authors
  if text = "" then "" else norm_text (py_split_head ';' text)

/-- `make_key` (scopus_full_analysis.py lines 196-201), reading the derived
columns of lines 186-194: `_eid` is the stripped external identifier,
`_doi` the stripped lowercased DOI, `_t` the normalized title and `_a1` the
normalized first author. -/
def make_key (row : CsvRow) : String :=
  let e := py_strip row.eid
  let d := py_lower (py_strip row.doi)
  if e ≠ "" then "EID:" ++ e
  else if d ≠ "" then "DOI:" ++ d
  else "FALL:" ++ norm_text row.title ++ "|" ++ toString row.year ++ "|" ++
    first_author row.authors

/-- The worked spec example rows `{id:"1",title:"A"}`, `{id:"1",title:"A-dup"}`,
`{id:"2",title:"B"}`. -/
def dedup_example_rows : List CsvRow :=
  [{ eid := "1", doi := "", title := "A", authors := "", year := 2020 },
   { eid := "1", doi := "", title := "A-dup", authors := "", year := 2020 },
   { eid := "2", doi := "", title := "B", authors := "", year := 2020 }]

end PyBib

namespace PyBib

/-! ## Credential resolution — `settings.py`

A credential file is modeled by its list of lines
(`path.read_text().splitlines()`); `none` stands for "argument not given or
file does not exist". -/

/-- `_read_first_token` (settings.py lines 49-56): the first line whose
content before any `#` comment (`line.split("#", 1)[0]`) strips to
non-empty. -/
def read_first_token : List String → Option String
  | [] => Option.none
  | line :: rest =>
    let cleaned := py_strip (py_split_head '#' line)
    if cleaned = "" then read_first_token rest else some cleaned

/-- Placeholder sentinel of the API key file (settings.py lines 68 and 75). -/
def api_key_placeholder : String := "YOUR_SCOPUS_API_KEY_HERE"

/-- Inputs of `load_scopus_api_key_with_source`: the explicit file's lines
(when the argument is given and the file exists), the `SCOPUS_API_KEY`
environment variable, and the default `config/scopus_api_key.txt` lines
(when that file exists). -/
structure ApiKeyEnv where
  api_key_file : Option (List String)
  env_scopus_api_key : Option String
  default_file : Option (List String)
deriving DecidableEq

/-- The guarded file read `cleaned = _read_first_token(...)` followed by
`if cleaned and cleaned != placeholder` (settings.py lines 66-69, 73-76):
`some` exactly when the function would `return` from that branch. -/
def file_token (file : Option (List String)) (placeholder : String) : Option String :=
  match file with
  | Option.none => Option.none
  | some lines =>
    match read_first_token lines with
    | Option.none => Option.none
    | some cleaned =>
      if cleaned ≠ "" ∧ cleaned ≠ placeholder then some cleaned else Option.none

/-- Fall-through of `load_scopus_api_key_with_source` to the default file
path (settings.py lines 73-77). -/
def api_key_default_branch (env : ApiKeyEnv) : Option String × Option String :=
  match file_token env.default_file api_key_placeholder with
  | some v => (some v, some "default_file")
  | Option.none => (Option.none, Option.none)

/-- `load_scopus_api_key_with_source` (settings.py lines 64-77): explicit
file first, then the `SCOPUS_API_KEY` environment variable (a non-empty but
whitespace-only value resolves to `None` with source `"env"`, mirroring
`env_key.strip() or None`), then the default file. -/
def load_scopus_api_key_with_source (env : ApiKeyEnv) :
    Option String × Option String :=
  match file_token env.api_key_file api_key_placeholder with
  | some v => (some v, some "file")
  | Option.none =>
    match env.env_scopus_api_key with
    | some env_key =>
      if env_key ≠ "" then
        ((if py_strip env_key = "" then Option.none else some (py_strip env_key)),
         some "env")
      else api_key_default_branch env
    | Option.none => api_key_default_branch env

/-- Resolution inputs of the spec's worked example: explicit file holding
`FILE_KEY`, environment variable holding `ENV_KEY`. -/
def both_sources_env : ApiKeyEnv :=
  { api_key_file := some ["FILE_KEY"], env_scopus_api_key := some "ENV_KEY",
    default_file := Option.none }

/-- A file holding only the placeholder sentinel, next to a set environment
variable. -/
def placeholder_file_env : ApiKeyEnv :=
  { api_key_file := some ["YOUR_SCOPUS_API_KEY_HERE"],
    env_scopus_api_key := some "ENV_KEY", default_file := Option.none }

end PyBib

namespace PyBib

/-! ## The extract run — `extract_scopus.py` / `settings.py` -/

/-- The frozen `SearchConfig` dataclass (settings.py lines 17-26): exactly
these seven fields, as produced by `load_search_config`. -/
structure SearchConfig where
  query : String
  database : String
  notes : String
  use_cursor_preferred : Bool
  subscriber_mode : Bool
  start_year : Option Int
  end_year : Option Int
deriving DecidableEq

/-- A Python attribute value of `SearchConfig` (strings, booleans, and the
optional year bounds, which hold `None` or an `int`). -/
inductive PyVal where
  | str : String → PyVal
  | bool : Bool → PyVal
  | int : Int → PyVal
  | pynone : PyVal
deriving DecidableEq

/-- The declared field names of the dataclass, in declaration order. -/
def search_config_fields : List String :=
  ["query", "database", "notes", "use_cursor_preferred", "subscriber_mode",
   "start_year", "end_year"]

/-- Python attribute lookup on the frozen `SearchConfig` dataclass:
`getattr` succeeds exactly on the seven declared fields; any other name —
in particular `max_years_back`, which `run_extract` reads at
extract_scopus.py lines 175, 184 and 194 — raises `AttributeError`
(modeled as `none`). -/
def SearchConfig.getattr (c : SearchConfig) (attr : String) : Option PyVal :=
  if attr = "query" then some (PyVal.str c.query)
  else if attr = "database" then some (PyVal.str c.database)
  else if attr = "notes" then some (PyVal.str c.notes)
  else if attr = "use_cursor_preferred" then some (PyVal.bool c.use_cursor_preferred)
  else if attr = "subscriber_mode" then some (PyVal.bool c.subscriber_mode)
  else if attr = "start_year" then
    some (match c.start_year with | some y => PyVal.int y | Option.none => PyVal.pynone)
  else if attr = "end_year" then
    some (match c.end_year with | some y => PyVal.int y | Option.none => PyVal.pynone)
  else Option.none

/-- Read a `PyVal` back as the `Optional[int]` that `run_slicing` expects
for `max_years_back`. -/
def pyval_opt_int : PyVal → Option Int
  | PyVal.int i => some i
  | _ => Option.none

/-- The observable effects of one `run_extract` call: remote search calls
(`search_call query download`), the raw-table write (with its row count),
and the manifest write (with the `n_records_downloaded`, `strategy_used`
and `dry_run` fields the claims inspect).  Logging is not modeled. -/
inductive Effect where
  | search_call : String → Bool → Effect
  | write_raw : Nat → Effect
  | write_manifest : Nat → String → Bool → Effect
deriving DecidableEq

/-- The exceptions `run_extract` can terminate with. -/
inductive ExtractError where
  /-- `FileExistsError`: the raw output already exists (lines 77-80). -/
  | file_exists_error
  /-- `RuntimeError` from `ensure_pybliometrics_cfg`: no API key and no
  existing cfg file (settings.py lines 120-125). -/
  | missing_api_key
  /-- `AttributeError`: `config.max_years_back` does not exist. -/
  | attribute_error
  /-- The estimate call failed and was not recovered by `force_slicing`. -/
  | search_error
  /-- `ValueError` from `run_slicing` (no year bounds, no `max_years_back`). -/
  | value_error
deriving DecidableEq

/-- The world one `run_extract` call runs against: which raw outputs exist,
the loaded configuration, whether credential resolution succeeds, the
outcome of the estimate call and of a cursor-paged fetch (each abstracting
one full `retry_scopus_search` invocation), the probe/fetch oracles and the
current UTC year. -/
structure ExtractEnv where
  raw_parquet_exists : Bool
  raw_csv_exists : Bool
  config : SearchConfig
  api_key_available : Bool
  estimate : Except PyExc Nat
  cursor_result : Except PyExc (List RawRecord)
  probe : String → Nat
  fetch : String → List RawRecord
  current_year : Int

/-- The remote calls the year-slicing loop issues, in order: one zero-download
size probe per year and one full fetch per covered year. -/
def slice_effects (probe : String → Nat) (query : String) : List Int → List Effect
  | [] => []
  | y :: ys =>
    let yq := year_query query y
    if probe yq = 0 then Effect.search_call yq false :: slice_effects probe query ys
    else Effect.search_call yq false :: Effect.search_call yq true ::
      slice_effects probe query ys

/-- The slicing branch of `run_extract` (extract_scopus.py lines 168-177 /
187-196) together with the write-out of lines 205-228, as result plus
effect list.  `strat` is the recorded `strategy`. -/
def run_slicing_extract (env : ExtractEnv) (myb : Option Int) (strat : String) :
    Except ExtractError Unit × List Effect :=
  match resolve_slicing_years env.config.start_year env.config.end_year myb
      env.current_year with
  | Except.error _ => (Except.error ExtractError.value_error, [])
  | Except.ok (s, e) =>
    let (frames, _covered) :=
      slice_years env.probe env.fetch env.config.query (year_range s e)
    let combined := frames.flatten
    let records := if combined.isEmpty then combined
      else drop_duplicates (fun r => r.eid) combined
    (Except.ok (), slice_effects env.probe env.config.query (year_range s e) ++
      [Effect.write_raw records.length,
       Effect.write_manifest records.length strat false])

/-- The cursor branch of `run_extract` (lines 178-186, dispatching into
`run_cursor_with_fallback`, lines 269-293) with its effects: one cursor
search call, then — when the attempt raises or is empty — the whole slicing
fallback. -/
def run_cursor_extract (env : ExtractEnv) (myb : Option Int) :
    Except ExtractError Unit × List Effect :=
  let cursor_call := Effect.search_call env.config.query true
  match env.cursor_result with
  | Except.ok results =>
    if results.isEmpty then
      let (res, effs) := run_slicing_extract env myb "slicing"
      (res, cursor_call :: effs)
    else
      (Except.ok (), [cursor_call, Effect.write_raw results.length,
        Effect.write_manifest results.length "cursor" false])
  | Except.error _ =>
    let (res, effs) := run_slicing_extract env myb "slicing"
    (res, cursor_call :: effs)

/-- Strategy dispatch of `run_extract` (extract_scopus.py lines 168-200).
In every slicing/cursor branch the call argument
`max_years_back=config.max_years_back` is evaluated before the callee runs,
so the branch performs that attribute lookup first and raises
`AttributeError` when it fails; the `single` branch (lines 197-200) reads no
such attribute and writes its records and manifest. -/
def run_extract_fetch (env : ExtractEnv) (force_slicing : Bool) (n_results : Nat) :
    Except ExtractError Unit × List Effect :=
  if force_slicing then
    match env.config.getattr "max_years_back" with
    | Option.none => (Except.error ExtractError.attribute_error, [])
    | some v => run_slicing_extract env (pyval_opt_int v) "slicing"
  else if threshold < n_results ∧ env.config.subscriber_mode ∧
      env.config.use_cursor_preferred then
    match env.config.getattr "max_years_back" with
    | Option.none => (Except.error ExtractError.attribute_error, [])
    | some v => run_cursor_extract env (pyval_opt_int v)
  else if threshold < n_results then
    match env.config.getattr "max_years_back" with
    | Option.none => (Except.error ExtractError.attribute_error, [])
    | some v => run_slicing_extract env (pyval_opt_int v) "slicing"
  else
    let records := env.fetch env.config.query
    (Except.ok (), [Effect.search_call env.config.query true,
      Effect.write_raw records.length,
      Effect.write_manifest records.length "single" false])

/-- `run_extract` (extract_scopus.py lines 62-229): the existence refusal
first (lines 77-80), then config load and credential resolution (the
missing-key `RuntimeError` of `ensure_pybliometrics_cfg`), the dry-run
short-circuit (lines 93-116, writing a zeroed `"dry-run"` manifest and
returning), the estimate call (lines 128-145, whose failure is recovered as
`threshold + 1` only under `force_slicing` for a query-limit error), and
the strategy dispatch. -/
def run_extract (env : ExtractEnv) (force_slicing dry_run : Bool) :
    Except ExtractError Unit × List Effect :=
  if env.raw_parquet_exists ∨ env.raw_csv_exists then
    (Except.error ExtractError.file_exists_error, [])
  else if ¬ env.api_key_available then
    (Except.error ExtractError.missing_api_key, [])
  else if dry_run then
    (Except.ok (), [Effect.write_manifest 0 "dry-run" true])
  else
    let est_call := Effect.search_call env.config.query false
    match env.estimate with
    | Except.error exc =>
      if force_slicing ∧ is_query_limit_error exc.message then
        let (res, effs) := run_extract_fetch env force_slicing (threshold + 1)
        (res, est_call :: effs)
      else (Except.error ExtractError.search_error, [est_call])
    | Except.ok n =>
      let (res, effs) := run_extract_fetch env force_slicing n
      (res, est_call :: effs)

/-- A demonstration configuration (subscriber, cursor-preferring, explicit
year bounds). -/
def demo_config : SearchConfig :=
  { query := "TITLE-ABS-KEY(x)", database := "Scopus", notes := "",
    use_cursor_preferred := true, subscriber_mode := true,
    start_year := some 2021, end_year := some 2022 }

/-- A world where the parquet raw output already exists for the run id. -/
def existing_output_env : ExtractEnv :=
  { raw_parquet_exists := true, raw_csv_exists := false, config := demo_config,
    api_key_available := true, estimate := Except.ok 10,
    cursor_result := Except.ok [], probe := fun _ => 0, fetch := fun _ => [],
    current_year := 2025 }

/-- A fresh world: no pre-existing output, credentials resolve, a small
estimated count. -/
def fresh_env : ExtractEnv :=
  { raw_parquet_exists := false, raw_csv_exists := false, config := demo_config,
    api_key_available := true, estimate := Except.ok 10,
    cursor_result := Except.ok [], probe := fun _ => 0, fetch := fun _ => [],
    current_year := 2025 }

/-- The fresh world with an estimate above the threshold. -/
def large_count_env : ExtractEnv :=
  { raw_parquet_exists := false, raw_csv_exists := false, config := demo_config,
    api_key_available := true, estimate := Except.ok 6000,
    cursor_result := Except.ok [], probe := fun _ => 0, fetch := fun _ => [],
    current_year := 2025 }

end PyBib

namespace PyBib

/-! ## Theorems -/

/-- C1: Strategy selection is a pure function of the estimated count `n`, the
threshold `T = 5000` and the flags: with `force_slicing` set the planned
strategy is `"slicing"` regardless of `n`; otherwise if `n > 5000` with
`subscriber_mode` and `use_cursor_preferred` both set it is `"cursor"`;
otherwise if `n > 5000` it is `"slicing"`; otherwise (`n ≤ 5000`) it is
`"single"`. -/
theorem planned_strategy_cases (n : Nat) (f s c : Bool) :
    (f = true → planned_strategy n f s c = "slicing") ∧
    (f = false → threshold < n → s = true → c = true →
      planned_strategy n f s c = "cursor") ∧
    (f = false → threshold < n → ¬(s = true ∧ c = true) →
      planned_strategy n f s c = "slicing") ∧
    (f = false → n ≤ threshold → planned_strategy n f s c = "single") := by
  cases f <;> cases s <;> cases c <;>
    simp only [planned_strategy, threshold] <;>
    refine ⟨?_, ?_, ?_, ?_⟩ <;> intro h <;> simp_all

/-- Witness for C1: each case of `planned_strategy_cases` instantiated at a
concrete input. -/
theorem planned_strategy_cases_witness :
    planned_strategy 3 true true true = "slicing" ∧
    planned_strategy 5001 false true true = "cursor" ∧
    planned_strategy 5001 false false true = "slicing" ∧
    planned_strategy 5000 false true true = "single" := by
  refine ⟨(planned_strategy_cases 3 true true true).1 rfl,
    (planned_strategy_cases 5001 false true true).2.1 rfl (by decide) rfl rfl,
    (planned_strategy_cases 5001 false false true).2.2.1 rfl (by decide) (by decide),
    (planned_strategy_cases 5000 false true true).2.2.2 rfl (by decide)⟩

/-- Sanity check of the whitespace collapse against the one-step reading of
`re.sub(r"\s+", " ", ·)`: a whitespace character emits a single `' '` and
consumes the whole run it starts. -/
lemma collapse_ws_space_run :
    ∀ (rest : List Char) (c : Char), is_py_space c = true →
      collapse_ws (c :: rest) = ' ' :: collapse_ws (rest.dropWhile is_py_space) := by
  intro rest
  induction rest with
  | nil => intro c h; simp [collapse_ws, h]
  | cons d rest' ih =>
    intro c h
    by_cases hd : is_py_space d = true
    · rw [List.dropWhile_cons, if_pos hd]
      conv_lhs => rw [collapse_ws]
      rw [if_pos h, ih d hd]
      rfl
    · have hd' : d ≠ ' ' := fun hde => by subst hde; simp [is_py_space] at hd
      have hcd : collapse_ws (d :: rest') = d :: collapse_ws rest' := by
        simp [collapse_ws, hd]
      rw [List.dropWhile_cons, if_neg (by simp [hd])]
      conv_lhs => rw [collapse_ws]
      rw [if_pos h, hcd]
      split
      · rename_i tl heq
        injection heq with h1 h2
        exact absurd h1 hd'
      · rfl

/-! ### Retry wrapper lemmas -/

/-- One loop iteration that succeeds returns immediately. -/
lemma retry_go_step_ok {α : Type} (mp : Bool) (f : Nat → Except PyExc α) (i r s : Nat)
    (v : α) (hf : f i = Except.ok v) :
    retry_go mp f i (r + 1) s = { outcome := RetryOutcome.ok v, attempts := i + 1, sleeps := s } := by
  simp [retry_go, hf]

/-- One loop iteration whose exception the classifier recognizes raises the
actionable `RuntimeError` immediately. -/
lemma retry_go_step_actionable {α : Type} (mp : Bool) (f : Nat → Except PyExc α)
    (i r s : Nat) (exc : PyExc) (msg : String) (hf : f i = Except.error exc)
    (hmsg : raise_actionable_scopus_error mp exc = some msg) :
    retry_go mp f i (r + 1) s =
      { outcome := RetryOutcome.actionable_error msg, attempts := i + 1, sleeps := s } := by
  simp [retry_go, hf, hmsg]

/-- One non-final loop iteration with an unrecognized exception sleeps and
continues with the next attempt. -/
lemma retry_go_step_continue {α : Type} (mp : Bool) (f : Nat → Except PyExc α)
    (i r s : Nat) (exc : PyExc) (hf : f i = Except.error exc)
    (hnone : raise_actionable_scopus_error mp exc = Option.none) :
    retry_go mp f i (r + 1 + 1) s = retry_go mp f (i + 1) (r + 1) (s + 1) := by
  conv_lhs => rw [retry_go]
  simp [hf, hnone]

/-- A persistently failing, unrecognized exception is retried with a sleep
between attempts and re-raised on the final attempt. -/
lemma retry_go_persistent_unrecognized {α : Type} (mp : Bool) (exc : PyExc)
    (hnone : raise_actionable_scopus_error mp exc = Option.none) :
    ∀ r i s, retry_go mp (fun _ => Except.error (α := α) exc) i (r + 1) s =
      { outcome := RetryOutcome.reraised exc, attempts := i + r + 1, sleeps := s + r } := by
  intro r
  induction r with
  | zero => intro i s; simp [retry_go, hnone]
  | succ r ih =>
    intro i s
    rw [retry_go_step_continue mp _ i r s exc rfl hnone, ih (i + 1) (s + 1)]
    simp only [RetryTrace.mk.injEq, and_true, true_and]
    constructor <;> omega

/-- The classifier answers the rate-limit message on every 429-classified
exception. -/
lemma raise_actionable_of_classified_429 (mp : Bool) (exc : PyExc)
    (hcls : classified_429 exc) :
    raise_actionable_scopus_error mp exc =
      some "Rate limited: too many requests; reduce request rate or retry later." := by
  obtain ⟨nm, sc, msg, insts⟩ := exc
  rcases hcls with hname | ⟨hnone, hstatus⟩
  · simp only at hname
    subst hname
    rfl
  · simp only at hnone hstatus
    subst hstatus
    simp [raise_actionable_scopus_error, hnone]
    rfl

/-- C2 counterexample: with every attempt failing as `Scopus429Error`, the
wrapper does not retry at all — it makes exactly one attempt, never sleeps,
and raises the actionable rate-limit `RuntimeError` instead of propagating
the last error after exhausting the 3 retries. -/
theorem retry_429_counterexample :
    (retry_scopus_search true persistent_429_attempt default_retries).attempts = 1 ∧
    (retry_scopus_search true persistent_429_attempt default_retries).sleeps = 0 ∧
    (retry_scopus_search true persistent_429_attempt default_retries).outcome =
      RetryOutcome.actionable_error
        "Rate limited: too many requests; reduce request rate or retry later." ∧
    (retry_scopus_search true persistent_429_attempt default_retries).outcome ≠
      RetryOutcome.reraised exc429 := by
  refine ⟨rfl, rfl, rfl, by decide⟩

/-- C2 (amended): an exception classified as rate limiting (429) is **not**
retried: the first attempt that raises it ends the run immediately with the
actionable rate-limit `RuntimeError`, after exactly one attempt and no
sleep.  The retry bound (default 3 attempts) and the fixed delay (default
2 seconds, slept twice for 4 seconds total) apply only to exceptions the
classifier does not recognize, whose last error propagates once the retries
are exhausted. -/
theorem retry_scopus_search_429_amended (mp : Bool) (att : Nat → Except PyExc Unit)
    (exc : PyExc) :
    (att 0 = Except.error exc → classified_429 exc →
      retry_scopus_search mp att default_retries =
        { outcome := RetryOutcome.actionable_error
            "Rate limited: too many requests; reduce request rate or retry later.",
          attempts := 1, sleeps := 0 }) ∧
    (raise_actionable_scopus_error mp exc = Option.none →
      retry_scopus_search mp (fun _ => Except.error (α := Unit) exc) default_retries =
        { outcome := RetryOutcome.reraised exc, attempts := 3, sleeps := 2 } ∧
      total_sleep_seconds
        (retry_scopus_search mp (fun _ => Except.error (α := Unit) exc) default_retries)
        default_delay_seconds = 4) := by
  constructor
  · intro h0 hcls
    have hmsg := raise_actionable_of_classified_429 mp exc hcls
    show retry_go mp att 0 (2 + 1) 0 = _
    rw [retry_go_step_actionable mp att 0 2 0 exc _ h0 hmsg]
  · intro hnone
    have h := retry_go_persistent_unrecognized (α := Unit) mp exc hnone 2 0 0
    constructor
    · exact h
    · show total_sleep_seconds (retry_go mp _ 0 (2 + 1) 0) default_delay_seconds = 4
      rw [h]
      norm_num [total_sleep_seconds, default_delay_seconds]

/-- Witness for C2 (amended): both conjuncts instantiated — the 429 case at
`exc429`, the unrecognized case at the generic transport failure. -/
theorem retry_scopus_search_429_amended_witness :
    retry_scopus_search true persistent_429_attempt default_retries =
      { outcome := RetryOutcome.actionable_error
          "Rate limited: too many requests; reduce request rate or retry later.",
        attempts := 1, sleeps := 0 } ∧
    retry_scopus_search true (fun _ => Except.error (α := Unit) exc_transport) default_retries =
      { outcome := RetryOutcome.reraised exc_transport, attempts := 3, sleeps := 2 } := by
  refine ⟨(retry_scopus_search_429_amended true persistent_429_attempt exc429).1 rfl
      (Or.inl rfl),
    ((retry_scopus_search_429_amended true (fun _ => Except.error exc_transport)
      exc_transport).2 rfl).1⟩

/-- C7: an exception whose class name is `Scopus401Error` or `Scopus403Error`,
or whose `status_code` attribute is 401 or 403, makes `retry_scopus_search`
raise an actionable `RuntimeError` on the first attempt — one attempt, no
sleep, no retry — and the message names the likely remediation: the invalid
key for 401, the missing institutional token or subscription for 403. -/
theorem retry_401_403_immediate (mp : Bool) (att : Nat → Except PyExc Unit) (exc : PyExc)
    (h0 : att 0 = Except.error exc)
    (hcls : exc.name = "Scopus401Error" ∨ exc.name = "Scopus403Error" ∨
      exc.status_code = some 401 ∨ exc.status_code = some 403) :
    (retry_scopus_search mp att default_retries).attempts = 1 ∧
    (retry_scopus_search mp att default_retries).sleeps = 0 ∧
    (∃ m, (retry_scopus_search mp att default_retries).outcome =
      RetryOutcome.actionable_error m) ∧
    (exc.name = "Scopus401Error" →
      (retry_scopus_search mp att default_retries).outcome =
        RetryOutcome.actionable_error
          "Unauthorized (401): SCOPUS_API_KEY is invalid or disabled.") ∧
    (exc.name = "Scopus403Error" →
      (retry_scopus_search mp att default_retries).outcome =
        RetryOutcome.actionable_error
          "Forbidden (403): access requires INST_TOKEN or an institutional subscription.") ∧
    (actionable_lookup exc.name = Option.none → exc.status_code = some 401 →
      (retry_scopus_search mp att default_retries).outcome =
        RetryOutcome.actionable_error
          "Unauthorized (401): SCOPUS_API_KEY is invalid or disabled.") ∧
    (actionable_lookup exc.name = Option.none → exc.status_code = some 403 →
      (retry_scopus_search mp att default_retries).outcome =
        RetryOutcome.actionable_error
          "Forbidden (403): access requires INST_TOKEN or an institutional subscription.") := by
  obtain ⟨nm, sc, msg, insts⟩ := exc
  simp only at h0 hcls ⊢
  have hsome : ∃ m, raise_actionable_scopus_error mp ⟨nm, sc, msg, insts⟩ = some m ∧
      (nm = "Scopus401Error" →
        m = "Unauthorized (401): SCOPUS_API_KEY is invalid or disabled.") ∧
      (nm = "Scopus403Error" →
        m = "Forbidden (403): access requires INST_TOKEN or an institutional subscription.") ∧
      (actionable_lookup nm = Option.none → sc = some 401 →
        m = "Unauthorized (401): SCOPUS_API_KEY is invalid or disabled.") ∧
      (actionable_lookup nm = Option.none → sc = some 403 →
        m = "Forbidden (403): access requires INST_TOKEN or an institutional subscription.") := by
    by_cases htbl : ∃ m, actionable_lookup nm = some m
    · obtain ⟨m, hm⟩ := htbl
      refine ⟨m, by simp [raise_actionable_scopus_error, hm], ?_, ?_, ?_, ?_⟩
      · intro h; subst h
        simpa [actionable_lookup, actionable] using hm.symm
      · intro h; subst h
        simpa [actionable_lookup, actionable] using hm.symm
      · intro h; rw [h] at hm; exact absurd hm (by simp)
      · intro h; rw [h] at hm; exact absurd hm (by simp)
    · have hnone : actionable_lookup nm = Option.none := by
        cases h : actionable_lookup nm with
        | none => rfl
        | some m => exact absurd ⟨m, h⟩ htbl
      have hname401 : nm ≠ "Scopus401Error" := by
        intro h; subst h; simp [actionable_lookup, actionable] at hnone
      have hname403 : nm ≠ "Scopus403Error" := by
        intro h; subst h; simp [actionable_lookup, actionable] at hnone
      rcases hcls with h | h | h | h
      · exact absurd h hname401
      · exact absurd h hname403
      · subst h
        exact ⟨_, by simp [raise_actionable_scopus_error, hnone]; rfl,
          fun h => absurd h hname401, fun h => absurd h hname403,
          fun _ _ => rfl, fun _ h => by simp at h⟩
      · subst h
        exact ⟨_, by simp [raise_actionable_scopus_error, hnone]; rfl,
          fun h => absurd h hname401, fun h => absurd h hname403,
          fun _ h => by simp at h, fun _ _ => rfl⟩
  obtain ⟨m, hm, hm401, hm403, hs401, hs403⟩ := hsome
  have hrun : retry_scopus_search mp att default_retries =
      { outcome := RetryOutcome.actionable_error m, attempts := 1, sleeps := 0 } := by
    show retry_go mp att 0 (2 + 1) 0 = _
    rw [retry_go_step_actionable mp att 0 2 0 _ m h0 hm]
  rw [hrun]
  exact ⟨rfl, rfl, ⟨m, rfl⟩,
    fun h => by rw [hm401 h],
    fun h => by rw [hm403 h],
    fun h1 h2 => by rw [hs401 h1 h2],
    fun h1 h2 => by rw [hs403 h1 h2]⟩

/-- Witness for C7: a `Scopus401Error`-named failure on the first attempt —
one attempt, no sleep, the 401 remediation message. -/
theorem retry_401_403_immediate_witness :
    (retry_scopus_search true
      (fun _ => Except.error (α := Unit)
        (⟨"Scopus401Error", Option.none, "unauthorized", []⟩ : PyExc))
      default_retries).attempts = 1 ∧
    (retry_scopus_search true
      (fun _ => Except.error (α := Unit)
        (⟨"Scopus401Error", Option.none, "unauthorized", []⟩ : PyExc))
      default_retries).outcome =
      RetryOutcome.actionable_error
        "Unauthorized (401): SCOPUS_API_KEY is invalid or disabled." := by
  have h := retry_401_403_immediate true
    (fun _ => Except.error (α := Unit)
      (⟨"Scopus401Error", Option.none, "unauthorized", []⟩ : PyExc))
    ⟨"Scopus401Error", Option.none, "unauthorized", []⟩ rfl (Or.inl rfl)
  exact ⟨h.1, h.2.2.2.1 rfl⟩

/-! ### Year-slicing lemmas -/

/-- The per-year loop keeps exactly the nonzero-probe years, in order, and
one frame per kept year. -/
lemma slice_years_eq (probe : String → Nat) (fetch : String → List RawRecord)
    (query : String) : ∀ ys : List Int,
    slice_years probe fetch query ys =
      ((ys.filter (fun y => probe (year_query query y) != 0)).map
        (fun y => fetch (year_query query y)),
       ys.filter (fun y => probe (year_query query y) != 0)) := by
  intro ys
  induction ys with
  | nil => rfl
  | cons y ys ih =>
    simp only [slice_years, ih, List.filter_cons]
    by_cases h : probe (year_query query y) = 0
    · simp [h]
    · simp [h]

/-- The inclusive year range is strictly ascending. -/
lemma year_range_sorted (s e : Int) : (year_range s e).Pairwise (· < ·) := by
  unfold year_range
  refine List.Pairwise.map _ ?_ (List.pairwise_lt_range _)
  intro a b h
  dsimp only
  omega

/-- C4: in the year-slicing fetcher, years are iterated in ascending order
over the inclusive `start..end` range; a year with a zero size probe is
skipped entirely and not recorded as covered; a year with a nonzero probe is
recorded as covered and its full fetch appended; the covered-years list is
exactly the ascending sublist of years with a nonzero probe.  On the worked
example — a 2-year range whose first year has 0 matches and whose second
year has 3 records — the covered years are exactly the second year and the
output has 3 rows. -/
theorem run_slicing_covers_nonzero_years :
    (∀ (probe : String → Nat) (fetch : String → List RawRecord) (query : String)
        (s e : Int) (myb : Option Int) (cy : Int),
      run_slicing probe fetch query (some s) (some e) myb cy =
        Except.ok (slicing_records_spec probe fetch query s e,
          covered_years_spec probe query s e)) ∧
    (∀ (probe : String → Nat) (query : String) (s e : Int),
      (covered_years_spec probe query s e).Pairwise (· < ·)) ∧
    run_slicing slicing_example_probe slicing_example_fetch "QUERY"
        (some 2021) (some 2022) Option.none 2025 =
      Except.ok
        ([{ eid := "2-s2.0-1", payload := "r1" },
          { eid := "2-s2.0-2", payload := "r2" },
          { eid := "2-s2.0-3", payload := "r3" }], [2022]) ∧
    (run_slicing slicing_example_probe slicing_example_fetch "QUERY"
        (some 2021) (some 2022) Option.none 2025).toOption.map
      (fun r => r.1.length) = some 3 := by
  refine ⟨?_, ?_, ?_, ?_⟩
  · intro probe fetch query s e myb cy
    unfold run_slicing
    simp only [resolve_slicing_years]
    rw [slice_years_eq]
    rfl
  · intro probe query s e
    exact (year_range_sorted s e).filter _
  · rfl
  · rfl

/-- C6: in the cursor-with-fallback fetch, a cursor attempt that raises (any
exception) or returns zero records is abandoned without propagating the
error: the result is exactly the year-slicing fetcher's, tagged with
effective strategy `"slicing"` and the fallback's covered years; a cursor
attempt with at least one record yields strategy `"cursor"` with
years-covered `None`. -/
theorem run_cursor_with_fallback_cases (probe : String → Nat)
    (fetch : String → List RawRecord) (query : String)
    (sy ey myb : Option Int) (cy : Int) :
    (∀ exc : PyExc,
      run_cursor_with_fallback (Except.error exc) probe fetch query sy ey myb cy =
        (run_slicing probe fetch query sy ey myb cy).map
          (fun r => (r.1, some r.2, "slicing"))) ∧
    (run_cursor_with_fallback (Except.ok []) probe fetch query sy ey myb cy =
      (run_slicing probe fetch query sy ey myb cy).map
        (fun r => (r.1, some r.2, "slicing"))) ∧
    (∀ (r : RawRecord) (rs : List RawRecord),
      run_cursor_with_fallback (Except.ok (r :: rs)) probe fetch query sy ey myb cy =
        Except.ok (r :: rs, Option.none, "cursor")) := by
  refine ⟨?_, ?_, ?_⟩
  · intro exc
    rcases h : run_slicing probe fetch query sy ey myb cy with e | ⟨recs, years⟩ <;>
      simp [run_cursor_with_fallback, h, Except.map]
  · rcases h : run_slicing probe fetch query sy ey myb cy with e | ⟨recs, years⟩ <;>
      simp [run_cursor_with_fallback, h, Except.map]
  · intro r rs
    simp [run_cursor_with_fallback]

/-! ### Deduplication lemmas -/

/-- `drop_duplicates_go` only consults the seen set through membership. -/
lemma drop_duplicates_go_congr {α : Type} (key : α → String) :
    ∀ (l : List α) (seen1 seen2 : List String),
      (∀ s, s ∈ seen1 ↔ s ∈ seen2) →
      drop_duplicates_go key seen1 l = drop_duplicates_go key seen2 l := by
  intro l
  induction l with
  | nil => intro _ _ _; rfl
  | cons r rs ih =>
    intro s1 s2 h
    by_cases hk : key r ∈ s2
    · have hk1 : key r ∈ s1 := (h _).mpr hk
      simp [drop_duplicates_go, hk, hk1, ih s1 s2 h]
    · have hk1 : key r ∉ s1 := fun hx => hk ((h _).mp hx)
      simp only [drop_duplicates_go]
      rw [if_neg (by simp [hk1]), if_neg (by simp [hk])]
      refine congrArg _ (ih _ _ ?_)
      intro s
      simp [List.mem_cons, h s]

/-- Keys already seen are exactly the rows the pass would drop: marking `k`
as seen is the same as pre-filtering every row whose key is `k`. -/
lemma drop_duplicates_go_filter {α : Type} (key : α → String) (k : String) :
    ∀ (l : List α) (seen : List String),
      drop_duplicates_go key (k :: seen) l =
        drop_duplicates_go key seen (l.filter (fun x => key x != k)) := by
  intro l
  induction l with
  | nil => intro _; rfl
  | cons r rs ih =>
    intro seen
    by_cases hk : key r = k
    · simp [drop_duplicates_go, List.filter_cons, hk, ih]
    · by_cases hs : key r ∈ seen
      · simp [drop_duplicates_go, List.filter_cons, hk, hs, ih]
      · have hmem : key r ∉ k :: seen := by simp [List.mem_cons, hk, hs]
        simp only [drop_duplicates_go, List.filter_cons]
        rw [if_neg (by simp [hmem]), if_pos (by simp [hk])]
        conv_rhs => rw [drop_duplicates_go]
        rw [if_neg (by simp [hs])]
        refine congrArg _ ?_
        rw [drop_duplicates_go_congr key rs (key r :: k :: seen) (k :: key r :: seen)
          (by intro s; simp [List.mem_cons]; tauto)]
        exact ih (key r :: seen)

/-- First-occurrence semantics of the dedup pass: the head row always
survives, and the rest is the dedup of the tail with every row of equal key
removed. -/
lemma drop_duplicates_cons {α : Type} (key : α → String) (r : α) (rs : List α) :
    drop_duplicates key (r :: rs) =
      r :: drop_duplicates key (rs.filter (fun x => key x != key r)) := by
  unfold drop_duplicates
  rw [drop_duplicates_go]
  rw [if_neg (by simp)]
  exact congrArg _ (drop_duplicates_go_filter key (key r) rs [])

/-- C5: the dedup key has fixed priority — the stripped EID when non-empty,
else the stripped lowercased DOI when non-empty, else the fallback composite
of normalized title, publication year and normalized first author — and
among rows of equal key only the first occurrence in input order survives:
the head of the list always survives and every later row with its key is
dropped.  The worked example `{id:"1",title:"A"}`, `{id:"1",title:"A-dup"}`,
`{id:"2",title:"B"}` reduces to 2 rows keeping the first `id:"1"` row. -/
theorem dedup_key_priority_first_survives :
    (∀ row : CsvRow,
      (py_strip row.eid ≠ "" → make_key row = "EID:" ++ py_strip row.eid) ∧
      (py_strip row.eid = "" → py_lower (py_strip row.doi) ≠ "" →
        make_key row = "DOI:" ++ py_lower (py_strip row.doi)) ∧
      (py_strip row.eid = "" → py_lower (py_strip row.doi) = "" →
        make_key row = "FALL:" ++ norm_text row.title ++ "|" ++ toString row.year ++
          "|" ++ first_author row.authors)) ∧
    (∀ (r : CsvRow) (rs : List CsvRow),
      drop_duplicates make_key (r :: rs) =
        r :: drop_duplicates make_key (rs.filter (fun x => make_key x != make_key r))) ∧
    drop_duplicates make_key dedup_example_rows =
      [{ eid := "1", doi := "", title := "A", authors := "", year := 2020 },
       { eid := "2", doi := "", title := "B", authors := "", year := 2020 }] := by
  refine ⟨?_, ?_, ?_⟩
  · intro row
    refine ⟨fun he => by simp [make_key, he],
      fun he hd => by simp [make_key, he, hd],
      fun he hd => by simp [make_key, he, hd]⟩
  · intro r rs
    exact drop_duplicates_cons make_key r rs
  · rfl

/-- Witness for C5: each key-priority case and the worked example, at
concrete rows. -/
theorem dedup_key_priority_first_survives_witness :
    make_key { eid := " E1 ", doi := "D", title := "T", authors := "A", year := 2020 } =
      "EID:E1" ∧
    make_key { eid := "", doi := " 10.1/X ", title := "T", authors := "A", year := 2020 } =
      "DOI:10.1/x" ∧
    make_key
        { eid := "", doi := "", title := " My  Title ", authors := "Ann Lee; Bob",
          year := 2021 } =
      "FALL:my title|2021|ann lee" ∧
    drop_duplicates make_key dedup_example_rows =
      [{ eid := "1", doi := "", title := "A", authors := "", year := 2020 },
       { eid := "2", doi := "", title := "B", authors := "", year := 2020 }] := by
  have h := dedup_key_priority_first_survives
  exact ⟨(h.1 _).1 (by decide), (h.1 _).2.1 (by decide) (by decide),
    (h.1 _).2.2 (by decide) (by decide), h.2.2⟩

/-! ### Credential resolution lemmas -/

/-- The first token of a credential file is never the empty string. -/
lemma read_first_token_ne_empty :
    ∀ (lines : List String) (v : String), read_first_token lines = some v → v ≠ "" := by
  intro lines
  induction lines with
  | nil => intro v h; exact absurd h (by simp [read_first_token])
  | cons line rest ih =>
    intro v h
    by_cases hc : py_strip (py_split_head '#' line) = ""
    · exact ih v (by simpa [read_first_token, hc] using h)
    · have : some (py_strip (py_split_head '#' line)) = some v := by
        simpa [read_first_token, hc] using h
      intro hv
      exact hc (by rw [Option.some_inj] at this; rw [this, hv])

/-- C8: primary API key resolution follows explicit file → `SCOPUS_API_KEY`
environment variable → default file.  Whenever the explicit file exists and
its first non-comment, non-blank line is non-empty and not the placeholder
sentinel, that value is returned with source `"file"`, whatever the
environment variable holds; a file holding only the placeholder is treated
as absent and resolution falls through to the environment variable. -/
theorem load_scopus_api_key_file_precedence (env : ApiKeyEnv) (lines : List String)
    (v : String) :
    (env.api_key_file = some lines → read_first_token lines = some v →
      v ≠ api_key_placeholder →
      load_scopus_api_key_with_source env = (some v, some "file")) ∧
    (env.api_key_file = some lines → read_first_token lines = some api_key_placeholder →
      ∀ k, env.env_scopus_api_key = some k → k ≠ "" → py_strip k ≠ "" →
      load_scopus_api_key_with_source env = (some (py_strip k), some "env")) := by
  constructor
  · intro hf ht hv
    have hne := read_first_token_ne_empty lines v ht
    simp [load_scopus_api_key_with_source, file_token, hf, ht, hne, hv]
  · intro hf ht k hk hk0 hks
    simp [load_scopus_api_key_with_source, file_token, hf, ht, hk, hk0, hks,
      api_key_placeholder]

/-- Witness for C8: with `FILE_KEY` in the explicit file and `ENV_KEY` in the
environment the file wins; with only the placeholder in the file the
environment value is used. -/
theorem load_scopus_api_key_file_precedence_witness :
    load_scopus_api_key_with_source both_sources_env = (some "FILE_KEY", some "file") ∧
    load_scopus_api_key_with_source placeholder_file_env =
      (some "ENV_KEY", some "env") := by
  refine ⟨(load_scopus_api_key_file_precedence both_sources_env ["FILE_KEY"]
      "FILE_KEY").1 rfl (by decide) (by decide),
    (load_scopus_api_key_file_precedence placeholder_file_env
      ["YOUR_SCOPUS_API_KEY_HERE"] "x").2 rfl (by decide) "ENV_KEY" rfl
      (by decide) (by decide)⟩

/-! ### The extract run -/

/-- Every slicing/cursor dispatch of `run_extract_fetch` dies on the
`max_years_back` attribute lookup before issuing any call. -/
lemma run_extract_fetch_attr_error (env : ExtractEnv) (f : Bool) (n : Nat)
    (h : f = true ∨ threshold < n) :
    run_extract_fetch env f n = (Except.error ExtractError.attribute_error, []) := by
  have h0 : env.config.getattr "max_years_back" = Option.none := rfl
  rcases h with hf | hn
  · simp [run_extract_fetch, hf, h0]
  · simp only [run_extract_fetch, h0]
    split_ifs with h1 h2 <;> rfl

/-- C3: the `SearchConfig` dataclass built by `load_search_config` defines
only `query`, `database`, `notes`, `use_cursor_preferred`,
`subscriber_mode`, `start_year` and `end_year`, so the access
`config.max_years_back` raises `AttributeError`; consequently every
dispatched slicing or cursor strategy (`force_slicing` set, or estimated
count above 5000) fails with that error before any further call, and a
`run_extract` invocation can only complete through the dry-run
short-circuit or the `single` path (estimate at most 5000, no forcing). -/
theorem max_years_back_attribute_error (c : SearchConfig) (env : ExtractEnv)
    (f : Bool) (n : Nat) :
    SearchConfig.getattr c "max_years_back" = Option.none ∧
    (∀ attr, (SearchConfig.getattr c attr).isSome = true ↔
      attr ∈ search_config_fields) ∧
    (f = true ∨ threshold < n →
      run_extract_fetch env f n = (Except.error ExtractError.attribute_error, [])) ∧
    (∀ d : Bool, (run_extract env f d).1 = Except.ok () →
      d = true ∨ ∃ m, env.estimate = Except.ok m ∧ m ≤ threshold ∧ f = false) := by
  refine ⟨rfl, ?_, run_extract_fetch_attr_error env f n, ?_⟩
  · intro attr
    simp only [SearchConfig.getattr]
    split_ifs with h1 h2 h3 h4 h5 h6 h7 <;> simp_all [search_config_fields]
  · intro d hok
    by_cases hd : d = true
    · exact Or.inl hd
    · right
      have hd' : d = false := by simpa using hd
      subst hd'
      by_cases hex : (env.raw_parquet_exists = true ∨ env.raw_csv_exists = true)
      · simp [run_extract, hex] at hok
      · by_cases hk : env.api_key_available = true
        · cases hest : env.estimate with
          | error exc =>
            by_cases hql : (f = true ∧ is_query_limit_error exc.message = true)
            · obtain ⟨hf1, hql2⟩ := hql
              have herr := run_extract_fetch_attr_error env f (threshold + 1)
                (Or.inl hf1)
              rw [hf1] at herr
              simp [run_extract, hex, hk, hest, hf1, hql2, herr] at hok
            · simp [run_extract, hex, hk, hest, hql] at hok
          | ok m =>
            by_cases hf : f = true
            · have herr := run_extract_fetch_attr_error env f m (Or.inl hf)
              simp [run_extract, hex, hk, hest, herr] at hok
            · by_cases hm : threshold < m
              · have herr := run_extract_fetch_attr_error env f m (Or.inr hm)
                simp [run_extract, hex, hk, hest, herr] at hok
              · exact ⟨m, rfl, Nat.le_of_not_lt hm, by simpa using hf⟩
        · simp [run_extract, hex, hk] at hok

/-- Witness for C3: the missing attribute on the demonstration config, a
forced-slicing dispatch dying with `AttributeError`, and a completed run
(small estimate, no forcing) being on the `single`/dry-run side. -/
theorem max_years_back_attribute_error_witness :
    SearchConfig.getattr demo_config "max_years_back" = Option.none ∧
    run_extract_fetch fresh_env true 10 =
      (Except.error ExtractError.attribute_error, []) ∧
    (false = true ∨ ∃ m, fresh_env.estimate = Except.ok m ∧ m ≤ threshold ∧
      false = false) := by
  have h := max_years_back_attribute_error demo_config fresh_env false 10
  have h2 := max_years_back_attribute_error demo_config fresh_env true 10
  exact ⟨h.1, h2.2.2.1 (Or.inl rfl), h.2.2.2 false (by rfl)⟩

/-- C9: when a raw output file (parquet or csv) already exists for the run
identifier, `run_extract` raises the pre-existing-output `FileExistsError`
before any fetch or write — the effect list is empty, so no file is touched
— and no flag of the extract path (`force_slicing`, `dry_run`) bypasses the
check: there is no force/overwrite flag on this path. -/
theorem run_extract_refuses_existing_output (env : ExtractEnv) (f d : Bool)
    (h : env.raw_parquet_exists = true ∨ env.raw_csv_exists = true) :
    run_extract env f d = (Except.error ExtractError.file_exists_error, []) := by
  unfold run_extract
  rw [if_pos h]

/-- Witness for C9: the world with an existing parquet output. -/
theorem run_extract_refuses_existing_output_witness :
    run_extract existing_output_env false false =
      (Except.error ExtractError.file_exists_error, []) :=
  run_extract_refuses_existing_output existing_output_env false false (Or.inl rfl)

/-- C10: a dry run on a fresh world (no pre-existing output, credentials
resolved) writes exactly one manifest whose `n_records_downloaded` is 0 and
whose `strategy_used` is `"dry-run"`, performs no remote search call, and
writes no raw-data file. -/
theorem run_extract_dry_run_manifest (env : ExtractEnv) (f : Bool)
    (hp : env.raw_parquet_exists = false) (hc : env.raw_csv_exists = false)
    (hk : env.api_key_available = true) :
    run_extract env f true = (Except.ok (), [Effect.write_manifest 0 "dry-run" true]) ∧
    (∀ q dl, Effect.search_call q dl ∉ (run_extract env f true).2) ∧
    (∀ n, Effect.write_raw n ∉ (run_extract env f true).2) := by
  have h1 : run_extract env f true =
      (Except.ok (), [Effect.write_manifest 0 "dry-run" true]) := by
    unfold run_extract
    rw [if_neg (by simp [hp, hc]), if_neg (by simp [hk])]
    simp
  refine ⟨h1, ?_, ?_⟩
  · intro q dl
    rw [h1]
    simp
  · intro n
    rw [h1]
    simp

/-- Witness for C10: the fresh world, dry run. -/
theorem run_extract_dry_run_manifest_witness :
    run_extract fresh_env false true =
      (Except.ok (), [Effect.write_manifest 0 "dry-run" true]) ∧
    Effect.search_call "TITLE-ABS-KEY(x)" false ∉ (run_extract fresh_env false true).2 ∧
    Effect.write_raw 0 ∉ (run_extract fresh_env false true).2 := by
  have h := run_extract_dry_run_manifest fresh_env false rfl rfl rfl
  exact ⟨h.1, h.2.1 "TITLE-ABS-KEY(x)" false, h.2.2 0⟩

end PyBib
